import Mathlib

/-!
Verification of the HeartPod backend session orchestrator.

Shallow embedding of the Python sources:
  * `src/tts.py`        – local/temi speech arbiter with epoch (sequence) guard
  * `src/asr.py`        – ASR mute flag
  * `src/listen.py`     – speech recognition pipeline filter
  * `src/ws_server.py`  – WebSocket protocol handler and snapshot store
  * `src/http_server.py`– HTTP transport variant
  * `src/robot.py`      – session state machine, reading loop, questionnaire

Machine-level concerns (threads, sockets, audio) are modelled as explicit
interleavings of atomic events; all shared state mutated under locks in the
source is represented as fields of explicit state records.
-/

set_option autoImplicit false

namespace HeartPod

/-! ### TurnArbiter, local mode (`src/tts.py`)

Shared state of `tts.py` in local mode: `_current_seq` (epoch counter,
incremented under `_seq_lock`), `_stop_flag`, and the ASR muted flag from
`asr.py`.  Side effects on the capture pipeline and the clients are recorded
as an explicit effect list. -/

structure TtsState where
  currentSeq : Nat
  stopFlag : Bool
  muted : Bool
  deriving Repr, DecidableEq

inductive TtsEffect where
  | effMute
  | effUnmute
  | effBroadcastActive (active : Bool)
  | effKillProc
  deriving Repr, DecidableEq

/-- Embeds `tts.stop()`: set `_stop_flag`, bump `_current_seq`, kill the playback
subprocess. -/
def ttsStop (s : TtsState) : TtsState × List TtsEffect :=
  ({ s with stopFlag := true, currentSeq := s.currentSeq + 1 }, [.effKillProc])

/-- Embeds `tts.speak(text)` in local mode: `asr.mute()`; `stop()`; clear
`_stop_flag`; increment `_current_seq` and capture it as the worker's epoch;
`broadcast_tts_active(True)`; spawn `_speak_local(text, seq)`.  Returns the
state, the spawned worker's epoch, and the effects. -/
def speakLocal (s : TtsState) : TtsState × Nat × List TtsEffect :=
  let s1 := { s with muted := true }
  let s2 := (ttsStop s1).1
  let s3 := { s2 with stopFlag := false }
  let s4 := { s3 with currentSeq := s3.currentSeq + 1 }
  (s4, s4.currentSeq, [.effMute, .effKillProc, .effBroadcastActive true])

/-- First guarded cleanup step of `_speak_local`'s `finally` block:
`with _seq_lock: if seq == _current_seq: broadcast_tts_active(False)`. -/
def workerCleanup1 (s : TtsState) (seq : Nat) : TtsState × List TtsEffect :=
  if seq = s.currentSeq then (s, [.effBroadcastActive false]) else (s, [])

/-- Second guarded cleanup step of `_speak_local`'s `finally` block (after the
`ASR_UNMUTE_DELAY` sleep): `with _seq_lock: if seq == _current_seq:
asr.unmute()`. -/
def workerCleanup2 (s : TtsState) (seq : Nat) : TtsState × List TtsEffect :=
  if seq = s.currentSeq then ({ s with muted := false }, [.effUnmute]) else (s, [])

/-- Atomic events that touch the shared TTS state, in any interleaving. -/
inductive TtsEvent where
  | speakEv
  | stopEv
  | cleanup1 (seq : Nat)
  | cleanup2 (seq : Nat)
  deriving Repr, DecidableEq

def ttsStep (s : TtsState) : TtsEvent → TtsState × List TtsEffect
  | .speakEv => ((speakLocal s).1, (speakLocal s).2.2)
  | .stopEv => ttsStop s
  | .cleanup1 seq => workerCleanup1 s seq
  | .cleanup2 seq => workerCleanup2 s seq

def runTts (s : TtsState) : List TtsEvent → TtsState
  | [] => s
  | e :: es => runTts (ttsStep s e).1 es

/-- A single event never decreases the epoch counter. -/
theorem ttsStep_seq_mono (s : TtsState) (e : TtsEvent) :
    s.currentSeq ≤ (ttsStep s e).1.currentSeq := by
  cases e with
  | speakEv =>
      simp only [ttsStep, speakLocal, ttsStop]
      omega
  | stopEv =>
      simp only [ttsStep, ttsStop]
      omega
  | cleanup1 seq =>
      simp only [ttsStep, workerCleanup1]
      split <;> simp
  | cleanup2 seq =>
      simp only [ttsStep, workerCleanup2]
      split <;> simp

/-- The epoch counter is monotone along any interleaving of events. -/
theorem runTts_seq_mono (evs : List TtsEvent) (s : TtsState) :
    s.currentSeq ≤ (runTts s evs).currentSeq := by
  induction evs generalizing s with
  | nil => exact Nat.le_refl _
  | cons e es ih =>
      exact Nat.le_trans (ttsStep_seq_mono s e) (ih (ttsStep s e).1)

theorem speakLocal_seq (s : TtsState) :
    (speakLocal s).2.1 = s.currentSeq + 2 ∧ (speakLocal s).1.currentSeq = s.currentSeq + 2 := by
  simp [speakLocal, ttsStop]

/-- C1.  Epoch law for local playback: after `speak(A)` (worker epoch
`seqA`) immediately followed by `speak(B)` (worker epoch `seqB > seqA`), at
any later point of any interleaving of further speak/stop/cleanup events, the
cleanup of A's worker is a strict no-op: it neither broadcasts
`tts_active=false` nor calls `asr.unmute`, and leaves the shared state
untouched — the sequence-number guard makes the stale worker's shared-state
effects a no-op. -/
theorem c1_stale_worker_cleanup_noop (s0 : TtsState) (evs : List TtsEvent) :
    (speakLocal s0).2.1 < (speakLocal (speakLocal s0).1).2.1 ∧
    workerCleanup1 (runTts (speakLocal (speakLocal s0).1).1 evs) (speakLocal s0).2.1 =
      (runTts (speakLocal (speakLocal s0).1).1 evs, []) ∧
    workerCleanup2 (runTts (speakLocal (speakLocal s0).1).1 evs) (speakLocal s0).2.1 =
      (runTts (speakLocal (speakLocal s0).1).1 evs, []) := by
  have hA : (speakLocal s0).2.1 = s0.currentSeq + 2 := (speakLocal_seq s0).1
  have hA1 : (speakLocal s0).1.currentSeq = s0.currentSeq + 2 := (speakLocal_seq s0).2
  have hB : (speakLocal (speakLocal s0).1).2.1 = s0.currentSeq + 4 := by
    have := (speakLocal_seq (speakLocal s0).1).1
    omega
  have hB1 : (speakLocal (speakLocal s0).1).1.currentSeq = s0.currentSeq + 4 := by
    have := (speakLocal_seq (speakLocal s0).1).2
    omega
  have hmono : (speakLocal (speakLocal s0).1).1.currentSeq ≤
      (runTts (speakLocal (speakLocal s0).1).1 evs).currentSeq :=
    runTts_seq_mono evs (speakLocal (speakLocal s0).1).1
  have hne : (speakLocal s0).2.1 ≠
      (runTts (speakLocal (speakLocal s0).1).1 evs).currentSeq := by omega
  refine ⟨by omega, ?_, ?_⟩
  · simp [workerCleanup1, hne]
  · simp [workerCleanup2, hne]

/-! ### TurnArbiter, temi (remote playback) mode (`src/tts.py` `speak`, temi
branch, and `src/ws_server.py` `_handler`, `tts_status` branch)

In temi mode `speak` cancels the previous fallback timer, mutes the ASR,
broadcasts the utterance and arms a fresh fallback timer whose callback
unmutes unconditionally.  A `tts_status=stop` message from the client spawns
a `_delayed_unmute` thread that sleeps `ASR_UNMUTE_DELAY` and then unmutes
unconditionally.  Timers are identified by an allocation counter so that a
cancelled timer can no longer fire; the spawned delayed-unmute threads are
counted (none of them is ever cancelled). -/

structure TemiState where
  muted : Bool
  pendingFallback : Option Nat
  pendingStopUnmutes : Nat
  nextTimerId : Nat
  lastTts : Option String
  deriving Repr, DecidableEq

def temiInit : TemiState :=
  { muted := false, pendingFallback := none, pendingStopUnmutes := 0,
    nextTimerId := 0, lastTts := none }

inductive TemiEvent where
  | speakTemi (text : String)
  | ttsStatusStop
  | delayedUnmuteFire
  | fallbackFire (timerId : Nat)
  deriving Repr, DecidableEq

/-- One atomic event of the temi-mode system.

  * `speakTemi` — `tts.speak` temi branch: cancel `_temi_fallback_timer`,
    `asr.mute()`, `broadcast_tts(text)`, arm a new fallback timer.
  * `ttsStatusStop` — `ws_server._handler` receiving
    `{"type":"tts_status","status":"stop"}`: spawn a `_delayed_unmute` thread.
  * `delayedUnmuteFire` — a spawned `_delayed_unmute` thread wakes up and
    calls `asr.unmute()` with no guard of any kind.
  * `fallbackFire` — an armed `_temi_fallback` timer fires (only possible if
    it was not cancelled): `asr.unmute(); broadcast_tts_active(False)`, with
    no epoch guard. -/
def temiStep (s : TemiState) : TemiEvent → TemiState
  | .speakTemi t =>
      { s with muted := true, pendingFallback := some s.nextTimerId,
               nextTimerId := s.nextTimerId + 1, lastTts := some t }
  | .ttsStatusStop =>
      { s with pendingStopUnmutes := s.pendingStopUnmutes + 1 }
  | .delayedUnmuteFire =>
      if 0 < s.pendingStopUnmutes then
        { s with pendingStopUnmutes := s.pendingStopUnmutes - 1, muted := false }
      else s
  | .fallbackFire timerId =>
      if s.pendingFallback = some timerId then
        { s with pendingFallback := none, muted := false }
      else s

def runTemi (s : TemiState) : List TemiEvent → TemiState
  | [] => s
  | e :: es => runTemi (temiStep s e) es

/-- C4 counterexample.  `speak(A)`; the client finishes A and sends
`tts_status=stop`; `speak(B)` starts (capture muted again, B's fallback timer
armed); then the delayed unmute spawned by A's stale stop signal fires.
Capture suppression is lifted (`muted = false`) even though B's utterance is
still current (its fallback timer is still pending and no stop signal for B
was processed): the stop path carries no epoch check, refuting the claim that
a stale stop signal never unmutes capture after a newer `speak()`. -/
theorem c4_stale_stop_unmutes_after_newer_speak :
    (runTemi temiInit [.speakTemi "A", .ttsStatusStop, .speakTemi "B"]).muted = true ∧
    (runTemi temiInit
      [.speakTemi "A", .ttsStatusStop, .speakTemi "B", .delayedUnmuteFire]).muted = false ∧
    (runTemi temiInit
      [.speakTemi "A", .ttsStatusStop, .speakTemi "B", .delayedUnmuteFire]).pendingFallback
      = some 1 := by
  refine ⟨rfl, rfl, rfl⟩

/-- C4 amended.  In temi mode the explicit stop signal and the
estimated-duration fallback timer each lift capture suppression (whichever
fires first unmutes), and a new `speak()` cancels the previous utterance's
fallback timer and re-suppresses capture — but neither lifting path is
epoch-guarded. -/
theorem c4_stop_and_fallback_lift_suppression (s : TemiState) (t : String) :
    (temiStep s (.speakTemi t)).muted = true ∧
    (temiStep s (.speakTemi t)).pendingFallback = some s.nextTimerId ∧
    (∀ timerId, s.pendingFallback = some timerId →
      (temiStep s (.fallbackFire timerId)).muted = false ∧
      (temiStep s (.fallbackFire timerId)).pendingFallback = none) ∧
    (0 < s.pendingStopUnmutes → (temiStep s .delayedUnmuteFire).muted = false) := by
  refine ⟨rfl, rfl, ?_, ?_⟩
  · intro timerId h
    constructor <;> simp [temiStep, h]
  · intro h
    simp [temiStep, h]

theorem c4_stop_and_fallback_lift_suppression_witness :
    (temiStep temiInit (.speakTemi "hello")).muted = true ∧
    (temiStep (temiStep temiInit (.speakTemi "hello")) (.fallbackFire 0)).muted = false ∧
    (temiStep (temiStep (temiStep temiInit (.speakTemi "hello")) .ttsStatusStop)
      .delayedUnmuteFire).muted = false := by
  have h1 := c4_stop_and_fallback_lift_suppression temiInit "hello"
  have h2 := c4_stop_and_fallback_lift_suppression
    (temiStep temiInit (.speakTemi "hello")) "unused"
  have h3 := c4_stop_and_fallback_lift_suppression
    (temiStep (temiStep temiInit (.speakTemi "hello")) .ttsStatusStop) "unused"
  exact ⟨h1.1, (h2.2.2.1 0 (by rfl)).1, h3.2.2.2 (by decide)⟩

/-! ### ASR mute flag and the recognition pipeline (`src/asr.py`,
`src/listen.py`)

`asr.py` holds a single `threading.Event` named `_muted`, with `mute`,
`unmute` and `is_muted`.  The recognition worker `listen.recognize` filters
each transcribed utterance — strip whitespace, strip trailing punctuation,
reject hallucinations and the empty string — and forwards everything else to
the coordinator as an `{"action":"answer"}` event.  The muted flag is not an
input of that filter: no code in `listen.py` (or anywhere else in `src/`)
calls `asr.is_muted`. -/

def hallucinations : List String :=
  ["", "Thank you for watching", "Thanks for watching",
   "Thank you for your attention", "Please subscribe",
   "Don't forget to like and subscribe", "Hit the bell icon", "You",
   "Subtitles by the Amara.org community", "MBC 뉴스"]

def isPyWhitespace (c : Char) : Bool :=
  c = ' ' || c = '\t' || c = '\n' || c = '\r' || c = '\x0b' || c = '\x0c'

def isStrippedPunct (c : Char) : Bool :=
  c = '.' || c = '!' || c = '?' || c = ',' || c = ';'

def dropWhileEnd (p : Char → Bool) (cs : List Char) : List Char :=
  (cs.reverse.dropWhile p).reverse

/-- Embeds `utterance.strip().rstrip(".!?,;")` from `listen.recognize`. -/
def stripUtterance (u : String) : String :=
  let cs := dropWhileEnd isPyWhitespace (u.toList.dropWhile isPyWhitespace)
  String.mk (dropWhileEnd isStrippedPunct cs)

/-- Per-utterance filter of `listen.recognize`: the text forwarded to the
coordinator as an answer action, or `none` when the utterance is dropped
(hallucination or empty). -/
def recognizeEmit (utterance : String) : Option String :=
  let u := stripUtterance utterance
  if hallucinations.contains u then none
  else if u = "" then none
  else some u

/-- The recognition pipeline's emission as a function of the ASR muted flag
and the transcribed utterance.  `listen.recognize` never reads the flag, so
the flag argument is dead: this is the literal composition of the source
pipeline with the `asr` module state. -/
def pipelineEmit (_asrMuted : Bool) (utterance : String) : Option String :=
  recognizeEmit utterance

/-- C3 (code bug).  An utterance recognized while capture-suppression is set
is NOT dropped: `pipelineEmit true "hello"` still emits the action text, and
the emission never depends on the muted flag — `asr.is_muted` is exported but
never consulted by the capture/recognition pipeline, contradicting the stated
suppression behaviour (and `asr.mute`'s own docstring "Suppress ASR
output"). -/
theorem c3_recognition_ignores_mute_flag :
    pipelineEmit true "hello" = some "hello" ∧
    (∀ (muted : Bool) (u : String), pipelineEmit muted u = pipelineEmit false u) := by
  constructor
  · decide
  · intro muted u
    rfl

/-! ### ClientGateway protocol handlers (`src/ws_server.py`,
`src/http_server.py`)

`_ACTION_TEXT` is the fixed keyword table (identical in both transports).
The WebSocket handler additionally intercepts `tts_status` messages and the
`reset` action before the enqueue logic; the HTTP handler has neither
branch. -/

/-- The `_ACTION_TEXT` dict: `some` of the mapped phrase for the nine
recognized keywords, `none` otherwise. -/
def actionText (a : String) : Option String :=
  if a = "start" then some "Start Self-Screening"
  else if a = "confirm" then some "yes"
  else if a = "accept" then some "yes"
  else if a = "ready" then some "ready"
  else if a = "continue" then some "continue"
  else if a = "skip" then some "skip"
  else if a = "retry" then some "retry"
  else if a = "exit" then some "no"
  else if a = "finish" then some "done"
  else none

/-- One decoded inbound WebSocket message.  `msgType` is
`msg.get("type", "action")` (default already applied), `action` is
`msg.get("action", "")`, `dataAnswer` is `data["answer"]` when present, and
`status` is `msg.get("status", "")`. -/
structure WsMsg where
  msgType : String
  action : String
  dataAnswer : Option String
  status : String
  deriving Repr, DecidableEq

/-- Effects of `ws_server._handler` on one message. -/
structure WsOut where
  enqueued : Option String
  resetSet : Bool
  unmuteScheduled : Bool
  deriving Repr, DecidableEq

/-- Per-message body of `ws_server._handler`: `tts_status` messages only
schedule a delayed unmute (on `status=="stop"`); `action=="reset"` only sets
`reset_event`; `action=="answer"` resolves to `data.get("answer", action)`;
every other action resolves through `_ACTION_TEXT.get(action, action)`; a
non-empty resolved text is enqueued. -/
def wsHandle (m : WsMsg) : WsOut :=
  if m.msgType = "tts_status" then
    { enqueued := none, resetSet := false, unmuteScheduled := m.status = "stop" }
  else if m.action = "reset" then
    { enqueued := none, resetSet := true, unmuteScheduled := false }
  else
    let text := if m.action = "answer" then m.dataAnswer.getD m.action
                else (actionText m.action).getD m.action
    { enqueued := if text = "" then none else some text,
      resetSet := false, unmuteScheduled := false }

/-- Body of `http_server._HttpHandler.do_POST` on `/action`: the text put on
`action_queue`, if any.  There is no `reset` branch and no reset signal in
the HTTP transport. -/
def httpPostAction (action : String) (dataAnswer : Option String) : Option String :=
  let text := if action = "answer" then dataAnswer.getD action
              else (actionText action).getD action
  if text = "" then none else some text

/-- Last-known state snapshot (`_ws_state` in `ws_server.py`, `_http_state`
in `http_server.py`); both are initialised to `{"page_id": 1, "data": {}}`
and overwritten whole by their `update_state`. -/
structure Snapshot where
  pageId : Nat
  data : String
  deriving Repr, DecidableEq

def wsUpdateState (pageId : Nat) (data : String) (_old : Snapshot) : Snapshot :=
  { pageId := pageId, data := data }

def httpUpdateState (pageId : Nat) (data : String) (_old : Snapshot) : Snapshot :=
  { pageId := pageId, data := data }

/-- Handler of `GET /state`: serialises the stored `_http_state` snapshot. -/
def httpGetState (s : Snapshot) : Snapshot := s

/-- The snapshot the WebSocket server sends to a newly connected client (and
re-broadcasts on `update_state`): the stored `_ws_state`. -/
def wsLatestSnapshot (s : Snapshot) : Snapshot := s

/-- An action-type message as decoded by the handler (type defaulted to
`"action"`, no playback status). -/
def wsMsgAction (a : String) (d : Option String) : WsMsg :=
  { msgType := "action", action := a, dataAnswer := d, status := "" }

/-- C8 counterexample.  `{"type":"action","action":"reset"}` carries a
non-empty keyword that is not in the fixed table and is not `"answer"`, yet
the handler enqueues nothing (it sets the reset signal instead) — refuting
"any other non-empty keyword is enqueued unchanged". -/
theorem c8_reset_keyword_not_enqueued :
    actionText "reset" = none ∧
    ("reset" : String) ≠ "" ∧ ("reset" : String) ≠ "answer" ∧
    wsHandle (wsMsgAction "reset" none)
      = { enqueued := none, resetSet := true, unmuteScheduled := false } := by
  refine ⟨rfl, by decide, by decide, rfl⟩

/-- C8 amended.  For an inbound action-type message: a keyword in the fixed
table is enqueued as its mapped phrase; `action="answer"` enqueues the
(non-empty) `data.answer` verbatim; any other non-empty keyword except the
reserved `"reset"` (which sets the reset signal and enqueues nothing) is
enqueued unchanged. -/
theorem c8_action_keyword_mapping (m : WsMsg) (hty : m.msgType = "action") :
    (∀ t, actionText m.action = some t → (wsHandle m).enqueued = some t) ∧
    (∀ v, m.action = "answer" → m.dataAnswer = some v → v ≠ "" →
      (wsHandle m).enqueued = some v) ∧
    (actionText m.action = none → m.action ≠ "answer" → m.action ≠ "reset" →
      m.action ≠ "" → (wsHandle m).enqueued = some m.action) ∧
    (m.action = "reset" → (wsHandle m) =
      { enqueued := none, resetSet := true, unmuteScheduled := false }) := by
  have hty' : m.msgType ≠ "tts_status" := by
    rw [hty]; decide
  refine ⟨?_, ?_, ?_, ?_⟩
  · intro t ht
    have hra : m.action ≠ "reset" ∧ m.action ≠ "answer" := by
      constructor
      · intro h1; rw [h1] at ht; simp [actionText] at ht
      · intro h2; rw [h2] at ht; simp [actionText] at ht
    have htne : t ≠ "" := by
      by_cases h9 : m.action = "start"
      all_goals by_cases h8 : m.action = "confirm"
      all_goals by_cases h7 : m.action = "accept"
      all_goals by_cases h6 : m.action = "ready"
      all_goals by_cases h5 : m.action = "continue"
      all_goals by_cases h4 : m.action = "skip"
      all_goals by_cases h3 : m.action = "retry"
      all_goals by_cases h2 : m.action = "exit"
      all_goals by_cases h1 : m.action = "finish"
      all_goals simp [actionText, h9, h8, h7, h6, h5, h4, h3, h2, h1] at ht
      all_goals rw [← ht]
      all_goals decide
    simp [wsHandle, hty', hra.1, hra.2, ht, htne]
  · intro v hans hdata hv
    simp [wsHandle, hty', hans, hdata, hv]
  · intro hnone hans hreset hne
    simp [wsHandle, hty', hans, hreset, hnone, hne]
  · intro hreset
    simp [wsHandle, hty', hreset]

theorem c8_action_keyword_mapping_witness :
    (wsHandle (wsMsgAction "start" none)).enqueued = some "Start Self-Screening" ∧
    (wsHandle (wsMsgAction "answer" (some "twice a week"))).enqueued
      = some "twice a week" ∧
    (wsHandle (wsMsgAction "hello there" none)).enqueued = some "hello there" ∧
    wsHandle (wsMsgAction "reset" none)
      = { enqueued := none, resetSet := true, unmuteScheduled := false } := by
  refine ⟨?_, ?_, ?_, ?_⟩
  · exact (c8_action_keyword_mapping _ rfl).1 _ rfl
  · exact (c8_action_keyword_mapping _ rfl).2.1 "twice a week" rfl rfl (by decide)
  · exact (c8_action_keyword_mapping _ rfl).2.2.1 rfl (by decide) (by decide) (by decide)
  · exact (c8_action_keyword_mapping _ rfl).2.2.2 rfl

/-- C9 counterexample.  On `action="reset"` the two transports diverge: the
WebSocket handler enqueues nothing and sets the reset signal, while
`POST /action` enqueues the literal text `"reset"` (the HTTP handler has no
reset branch and no reset signal at all) — refuting the claimed equivalence
"including the treatment of the ... 'reset' action". -/
theorem c9_http_ws_reset_divergence :
    httpPostAction "reset" none = some "reset" ∧
    (wsHandle (wsMsgAction "reset" none)).enqueued = none ∧
    (wsHandle (wsMsgAction "reset" none)).resetSet = true := by
  refine ⟨rfl, rfl, rfl⟩

/-- C9 amended.  For every action payload whose keyword is not `"reset"`,
`POST /action` enqueues exactly the text the WebSocket handler would enqueue
for the same action-type message, and `GET /state` returns exactly the
snapshot the push server would hold (and send to a newly connected client)
after the same `update_state` call. -/
theorem c9_http_ws_equivalent_off_reset (a : String) (d : Option String)
    (ha : a ≠ "reset") :
    httpPostAction a d = (wsHandle (wsMsgAction a d)).enqueued ∧
    (∀ (p : Nat) (dat : String) (s1 s2 : Snapshot),
      httpGetState (httpUpdateState p dat s1) = wsLatestSnapshot (wsUpdateState p dat s2)) := by
  constructor
  · simp [httpPostAction, wsHandle, wsMsgAction, ha,
      show ("action" : String) ≠ "tts_status" by decide]
  · intro p dat s1 s2
    rfl

def initialSnapshot : Snapshot := { pageId := 1, data := "" }

theorem c9_http_ws_equivalent_off_reset_witness :
    httpPostAction "confirm" none = (wsHandle (wsMsgAction "confirm" none)).enqueued ∧
    httpGetState (httpUpdateState 7 "data" initialSnapshot) =
      wsLatestSnapshot (wsUpdateState 7 "data" initialSnapshot) := by
  refine ⟨(c9_http_ws_equivalent_off_reset "confirm" none (by decide)).1, ?_⟩
  exact (c9_http_ws_equivalent_off_reset "confirm" none (by decide)).2 7 "data" _ _

/-! ### SessionController data model (`src/state.py`, `src/robot.py`)

`ConversationState` is a dict; `answers` and `readings` are string-keyed
dicts (readings values rendered as strings, as the node messages use them).
`PAGE_CONFIG`, `MAX_RETRIES` and `READING_TIMEOUT` live in `config.py`, which
is code of this repository not present under `src/`; the page table is
therefore passed as an explicit parameter and the retry ceiling as a natural
number, so every theorem holds for any instantiation of the missing
configuration. -/

structure Session where
  current_stage : String
  page_id : Nat
  robot_response : String
  answers : List (String × String)
  readings : List (String × String)
  retry_stage : String
  retry_count : Nat
  deriving Repr, DecidableEq

/-- Python-dict lookup on an association list. -/
def lookupKV (k : String) : List (String × String) → Option String
  | [] => none
  | (k', v) :: rest => if k' = k then some v else lookupKV k rest

/-- Python-dict assignment on an association list: replace in place if the
key exists, else append. -/
def insertKV (k v : String) : List (String × String) → List (String × String)
  | [] => [(k, v)]
  | (k', v') :: rest =>
      if k' = k then (k, v) :: rest else (k', v') :: insertKV k v rest

theorem lookupKV_insertKV (k v : String) (m : List (String × String)) :
    lookupKV k (insertKV k v m) = some v := by
  induction m with
  | nil => simp [insertKV, lookupKV]
  | cons p rest ih =>
      by_cases h : p.1 = k
      · simp [insertKV, lookupKV, h]
      · simp [insertKV, lookupKV, h, ih]

/-- Modelled from the spec: `config.py`'s `PAGE_CONFIG` is code of this
repository that is not under `src/`.  Per spec §3, a `PageDescriptor` is
static read-only per-stage configuration: a numeric page id (a pure function
of the stage), a display/speech message, and for q1–q3 an ordered option
list; `speechOrMessage` is the resolved `cfg.get("speech", cfg["message"])`
used by the simple nodes. -/
structure PageConfig where
  pageId : String → Nat
  message : String → String
  speechOrMessage : String → String
  options : String → List String

/-- Embeds `robot._set_page`: write stage, page id and response into the session
(the `update_state` broadcast and `flush_action_queue` calls are external
effects that do not touch the session). -/
def setPage (cfg : PageConfig) (s : Session) (stage message : String) : Session :=
  { s with current_stage := stage, page_id := cfg.pageId stage,
           robot_response := message }

/-- Embeds `robot._simple_node(stage)`: display `PAGE_CONFIG[stage]`'s speech (or
message) text. -/
def simpleNode (cfg : PageConfig) (stage : String) (s : Session) : Session :=
  setPage cfg s stage (cfg.speechOrMessage stage)

/-- A device reading as delivered on `device_queue` (values rendered as the
strings the node messages embed). -/
inductive DevValue where
  | oximeterVal (hr spo2 : String)
  | bpVal (value : String)
  | scaleVal (value : String)
  deriving Repr, DecidableEq

/-- Tail of `robot._do_device_reading`: store the received payload into
`state["readings"]` keyed by device. -/
def storeReading (device : String) (d : DevValue) (s : Session) : Session :=
  if device = "oximeter" then
    match d with
    | .oximeterVal hr spo2 =>
        { s with readings :=
            insertKV "oximeter_spo2" spo2 (insertKV "oximeter_hr" hr s.readings) }
    | _ => s
  else if device = "bp" then
    match d with
    | .bpVal v => { s with readings := insertKV "bp" v s.readings }
    | _ => s
  else if device = "scale" then
    match d with
    | .scaleVal v => { s with readings := insertKV "scale" v s.readings }
    | _ => s
  else s

def readingGet (k : String) (r : List (String × String)) : String :=
  (lookupKV k r).getD "?"

/-- The `bp_done` reading sentence: split on `/` into exactly systolic and
diastolic, falling back to the raw value when the unpacking fails. -/
def bpReadingSentence (bp : String) : String :=
  match bp.splitOn "/" with
  | [systolic, diastolic] =>
      "Your blood pressure is " ++ systolic.trim ++ " over " ++ diastolic.trim ++ ". "
  | _ => "Your blood pressure is " ++ bp ++ ". "

/-- The live-reading message of `oximeter_done_node` / `bp_done_node` /
`scale_done_node`. -/
def doneMessage (cfg : PageConfig) (device : String)
    (r : List (String × String)) : String :=
  if device = "oximeter" then
    "Your heart rate is " ++ readingGet "oximeter_hr" r ++
      " beats per minute, and your blood oxygen level is " ++
      readingGet "oximeter_spo2" r ++ " percent. " ++ cfg.message "oximeter_done"
  else if device = "bp" then
    bpReadingSentence ((lookupKV "bp" r).getD "?/?") ++ cfg.message "bp_done"
  else if device = "scale" then
    "Your weight is " ++ readingGet "scale" r ++ " kilograms. " ++
      cfg.message "scale_done"
  else ""

def doneNode (cfg : PageConfig) (device : String) (s : Session) : Session :=
  setPage cfg s (device ++ "_done") (doneMessage cfg device s.readings)

def readingNode (cfg : PageConfig) (device : String) (s : Session) : Session :=
  simpleNode cfg (device ++ "_reading") s

/-- Embeds `robot.sorry_node`: the `sorry` page with the current retry counter in
the message. -/
def sorryNode (cfg : PageConfig) (maxRetries : Nat) (s : Session) : Session :=
  setPage cfg s "sorry"
    (cfg.message "sorry" ++ "\n(Retry " ++ toString s.retry_count ++ "/" ++
      toString maxRetries ++ ")")

/-- The device-timeout branch of `_reading_loop`:
`state["retry_count"] += 1; state["retry_stage"] = f"{device}_reading"`. -/
def timeoutUpdate (device : String) (s : Session) : Session :=
  { s with retry_count := s.retry_count + 1, retry_stage := device ++ "_reading" }

/-- The fresh session dict constructed at the top of `run()`'s outer loop
(idle re-entry): empty maps, `retry_count = 0`. -/
def freshSession (cfg : PageConfig) : Session :=
  { current_stage := "idle", page_id := cfg.pageId "idle", robot_response := "",
    answers := [], readings := [], retry_stage := "", retry_count := 0 }

/-! ### Questionnaire stages (`robot.run`, q1–q3 inner loop)

The NLU oracle (`llm.evaluate_questionnaire_input`) is an external
collaborator; its classification of one user turn is an input of the step. -/

inductive QIntent where
  | qSkip
  | qAnswer (value : String)
  | qUnclear
  deriving Repr, DecidableEq

/-- The re-prompt printed on an unclear classification: the enumerated option
list of the current question. -/
def repromptText (options : List String) : String :=
  "I didn't quite catch that. Please choose one of:\n" ++
    String.intercalate "\n"
      (options.enum.map (fun p => "  " ++ toString (p.1 + 1) ++ ". " ++ p.2))

/-- One pass of the q1–q3 inner loop after the oracle classified the user
turn: returns the session, whether the loop breaks (stage advances), and the
re-prompt spoken on an unclear turn. -/
def questionnaireStep (cfg : PageConfig) (s : Session) (qkey : String) :
    QIntent → Session × Bool × Option String
  | .qSkip => ({ s with answers := insertKV qkey "skipped" s.answers }, true, none)
  | .qAnswer v => ({ s with answers := insertKV qkey v s.answers }, true, none)
  | .qUnclear => (s, false, some (repromptText (cfg.options qkey)))

/-! ### Reading cycle (`robot._reading_loop`, `robot._confirm_reading`)

`_ask_user` turns and the oracle verdicts (`evaluate_proceed`,
`retry_or_give_up`) are inputs; the per-iteration device outcome is the
dummy-mode `device_queue.get(timeout=READING_TIMEOUT)` result. -/

/-- Embeds Python `str.lower()` on the ASCII keywords the flow compares against. -/
def pyLowerChar (c : Char) : Char :=
  if 'A' ≤ c ∧ c ≤ 'Z' then Char.ofNat (c.toNat + 32) else c

def pyLower (s : String) : String := String.mk (s.toList.map pyLowerChar)

/-- One `_ask_user` turn and the proceed-oracle verdict on it. -/
structure UserTurn where
  text : String
  oracleProceed : Bool
  oracleMessage : String
  deriving Repr, DecidableEq

/-- Embeds `robot._confirm_reading`: the literal keyword `retry` (lower-cased
comparison) requests a redo (`false`); a proceed verdict confirms (`true`);
otherwise speak the follow-up and ask again.  `none` when the turn script
runs out (the Python loop would still be blocked). -/
def confirmReading : List UserTurn → Option Bool
  | [] => none
  | t :: rest =>
      if pyLower t.text = "retry" then some false
      else if t.oracleProceed then some true
      else confirmReading rest

/-- Per-iteration input of the reading loop: either the acquisition succeeded
within the timeout (with the confirmation turns that follow), or it timed
out (with the retry-or-giveup oracle verdict of the user's next turn, absent
when the user gives none). -/
inductive IterOutcome where
  | acqSuccess (d : DevValue) (confirmTurns : List UserTurn)
  | acqTimeout (retryDecision : Option Bool)
  deriving Repr, DecidableEq

/-- The `while True` reading loop of `robot._reading_loop` (after the intro):
reading node, acquisition, then either done+confirmation or
timeout/sorry/ceiling-check/retry-question.  Returns `some (true, s)` on a
confirmed reading, `some (false, s)` when retries are exhausted or the user
gives up, `none` when the input script runs out while the Python loop would
still be waiting. -/
def readingLoop (cfg : PageConfig) (maxRetries : Nat) (device : String) :
    List IterOutcome → Session → Option (Bool × Session)
  | [], _ => none
  | .acqSuccess d turns :: rest, s =>
      let s1 := readingNode cfg device s
      let s2 := storeReading device d s1
      let s3 := doneNode cfg device s2
      match confirmReading turns with
      | some true => some (true, s3)
      | some false => readingLoop cfg maxRetries device rest s3
      | none => none
  | .acqTimeout decision :: rest, s =>
      let s1 := readingNode cfg device s
      let s2 := timeoutUpdate device s1
      let s3 := sorryNode cfg maxRetries s2
      if maxRetries ≤ s3.retry_count then some (false, s3)
      else
        match decision with
        | some true => readingLoop cfg maxRetries device rest s3
        | some false => some (false, s3)
        | none => none

@[simp] theorem setPage_retry_count (cfg : PageConfig) (s : Session)
    (stage message : String) :
    (setPage cfg s stage message).retry_count = s.retry_count := rfl

@[simp] theorem storeReading_retry_count (device : String) (d : DevValue)
    (s : Session) : (storeReading device d s).retry_count = s.retry_count := by
  unfold storeReading
  split
  · cases d <;> rfl
  · split
    · cases d <;> rfl
    · split
      · cases d <;> rfl
      · rfl

@[simp] theorem timeoutUpdate_retry_count (device : String) (s : Session) :
    (timeoutUpdate device s).retry_count = s.retry_count + 1 := rfl

@[simp] theorem readingNode_retry_count (cfg : PageConfig) (device : String)
    (s : Session) : (readingNode cfg device s).retry_count = s.retry_count := rfl

@[simp] theorem sorryNode_retry_count (cfg : PageConfig) (maxRetries : Nat)
    (s : Session) : (sorryNode cfg maxRetries s).retry_count = s.retry_count := rfl

@[simp] theorem doneNode_retry_count (cfg : PageConfig) (device : String)
    (s : Session) : (doneNode cfg device s).retry_count = s.retry_count := rfl

/-- The input script driving the Nth-timeout scenario: `n` consecutive
acquisition timeouts, the user answering "retry" between failures and giving
no decisive input after the last one. -/
def timeoutScript : Nat → List IterOutcome
  | 0 => []
  | n + 1 =>
      if n = 0 then [.acqTimeout none]
      else .acqTimeout (some true) :: timeoutScript n

theorem readingLoop_timeout_exhaust (cfg : PageConfig) (maxRetries : Nat)
    (device : String) :
    ∀ (k : Nat) (s : Session), 1 ≤ k → s.retry_count + k = maxRetries →
      ∃ s', readingLoop cfg maxRetries device (timeoutScript k) s
        = some (false, s') ∧ s'.retry_count = maxRetries := by
  intro k
  induction k with
  | zero => intro s h hsum; exact absurd h (by omega)
  | succ n ih =>
      intro s _ hsum
      cases n with
      | zero =>
          refine ⟨sorryNode cfg maxRetries (timeoutUpdate device
            (readingNode cfg device s)), ?_, by simp; omega⟩
          simp only [timeoutScript, if_pos rfl, readingLoop]
          rw [if_pos (by simp; omega)]
      | succ m =>
          have hlt : ¬ maxRetries ≤
              (sorryNode cfg maxRetries (timeoutUpdate device
                (readingNode cfg device s))).retry_count := by
            simp; omega
          obtain ⟨s', hs', hrc⟩ := ih
            (sorryNode cfg maxRetries (timeoutUpdate device (readingNode cfg device s)))
            (by omega) (by simp; omega)
          refine ⟨s', ?_, hrc⟩
          simp only [timeoutScript, if_neg (Nat.succ_ne_zero m), readingLoop]
          rw [if_neg hlt]
          exact hs'

/-- C5.  After exactly `MAX_RETRIES` consecutive acquisition timeouts with no
successful intermediate reading (the user choosing retry between failures and
giving no decisive input after the last), the reading loop reports failure
(`False`), and `run()`'s outer loop re-enters Idle with a freshly constructed
session: `retry_count = 0` and both maps empty. -/
theorem c5_retry_exhaustion_aborts_to_fresh_idle (cfg : PageConfig)
    (maxRetries : Nat) (device : String) (s : Session)
    (hmax : 1 ≤ maxRetries) (hzero : s.retry_count = 0) :
    (∃ s', readingLoop cfg maxRetries device (timeoutScript maxRetries) s
        = some (false, s') ∧ s'.retry_count = maxRetries) ∧
    (freshSession cfg).retry_count = 0 ∧
    (freshSession cfg).answers = [] ∧
    (freshSession cfg).readings = [] ∧
    (freshSession cfg).current_stage = "idle" := by
  refine ⟨?_, rfl, rfl, rfl, rfl⟩
  exact readingLoop_timeout_exhaust cfg maxRetries device maxRetries s hmax (by omega)

/-- Modelled from the spec: `config.py` is not under `src/`; spec §4.1 and
Scenario 3 fix the retry ceiling at 3, and the page ids follow the stage
enumeration order of §3 (placeholder texts for the missing message table). -/
def specCfg : PageConfig :=
  { pageId := fun st =>
      if st = "idle" then 1 else if st = "welcome" then 2
      else if st = "q1" then 3 else if st = "q2" then 4
      else if st = "q3" then 5 else if st = "measure_intro" then 6
      else if st = "oximeter_intro" then 7 else if st = "oximeter_reading" then 8
      else if st = "oximeter_done" then 9 else if st = "bp_intro" then 10
      else if st = "bp_reading" then 11 else if st = "bp_done" then 12
      else if st = "scale_intro" then 13 else if st = "scale_reading" then 14
      else if st = "scale_done" then 15 else if st = "recap" then 16
      else if st = "sorry" then 17 else 0,
    message := fun st => st ++ " message",
    speechOrMessage := fun st => st ++ " speech",
    options := fun st =>
      if st = "q1" then ["Yes, I smoke", "No, I do not smoke"]
      else if st = "q2" then ["Never", "Sometimes", "Often"]
      else if st = "q3" then ["Never", "Sometimes", "Often"]
      else [] }

theorem c5_retry_exhaustion_aborts_to_fresh_idle_witness :
    (∃ s', readingLoop specCfg 3 "oximeter" (timeoutScript 3) (freshSession specCfg)
        = some (false, s') ∧ s'.retry_count = 3) ∧
    (freshSession specCfg).retry_count = 0 ∧
    (freshSession specCfg).answers = [] ∧
    (freshSession specCfg).readings = [] ∧
    (freshSession specCfg).current_stage = "idle" :=
  c5_retry_exhaustion_aborts_to_fresh_idle specCfg 3 "oximeter"
    (freshSession specCfg) (by decide) rfl

@[simp] theorem setPage_current_stage (cfg : PageConfig) (s : Session)
    (stage message : String) : (setPage cfg s stage message).current_stage = stage := rfl

@[simp] theorem setPage_answers (cfg : PageConfig) (s : Session)
    (stage message : String) : (setPage cfg s stage message).answers = s.answers := rfl

@[simp] theorem setPage_retry_stage (cfg : PageConfig) (s : Session)
    (stage message : String) :
    (setPage cfg s stage message).retry_stage = s.retry_stage := rfl

@[simp] theorem storeReading_answers (device : String) (d : DevValue)
    (s : Session) : (storeReading device d s).answers = s.answers := by
  unfold storeReading
  split
  · cases d <;> rfl
  · split
    · cases d <;> rfl
    · split
      · cases d <;> rfl
      · rfl

@[simp] theorem storeReading_retry_stage (device : String) (d : DevValue)
    (s : Session) : (storeReading device d s).retry_stage = s.retry_stage := by
  unfold storeReading
  split
  · cases d <;> rfl
  · split
    · cases d <;> rfl
    · split
      · cases d <;> rfl
      · rfl

/-- C6.  Across all session-mutating operations of the orchestrator, the
retry counter is incremented only by the device-timeout branch and set to 0
only by the fresh-session construction at idle re-entry: every page
transition (`_set_page`, hence every node), a stored successful reading, any
questionnaire classification (including "unclear", which changes nothing at
all), and the whole successful reading-display iteration leave `retry_count`
unchanged.  The proceed/confirm loops (`_wait_for_proceed`,
`_confirm_reading`) take no session argument in the embedding because the
source never mutates state there. -/
theorem c6_retry_counter_invariant (cfg : PageConfig) (s : Session) :
    (∀ stage message, (setPage cfg s stage message).retry_count = s.retry_count) ∧
    (∀ device d, (storeReading device d s).retry_count = s.retry_count) ∧
    (∀ qkey intent,
      ((questionnaireStep cfg s qkey intent).1).retry_count = s.retry_count) ∧
    (∀ qkey, (questionnaireStep cfg s qkey .qUnclear).1 = s) ∧
    (∀ device d, (doneNode cfg device (storeReading device d
        (readingNode cfg device s))).retry_count = s.retry_count) ∧
    (∀ device, (timeoutUpdate device s).retry_count = s.retry_count + 1) ∧
    (freshSession cfg).retry_count = 0 := by
  refine ⟨fun _ _ => rfl, fun device d => by simp, ?_, fun _ => rfl,
    fun device d => by simp, fun _ => rfl, rfl⟩
  intro qkey intent
  cases intent <;> rfl

/-- C7.  Questionnaire classification outcomes: "skip" stores exactly the
string `"skipped"` under the question key and breaks out (stage advances);
"answer(X)" stores exactly the matched option text `X` and breaks out;
"unclear" leaves the session (stage and answers) untouched, does not
advance, and re-prompts with the enumerated option list. -/
theorem c7_questionnaire_outcomes (cfg : PageConfig) (s : Session)
    (qkey v : String) :
    (lookupKV qkey ((questionnaireStep cfg s qkey .qSkip).1).answers
        = some "skipped" ∧
      (questionnaireStep cfg s qkey .qSkip).2.1 = true) ∧
    (lookupKV qkey ((questionnaireStep cfg s qkey (.qAnswer v)).1).answers
        = some v ∧
      (questionnaireStep cfg s qkey (.qAnswer v)).2.1 = true) ∧
    questionnaireStep cfg s qkey .qUnclear
      = (s, false, some (repromptText (cfg.options qkey))) := by
  exact ⟨⟨lookupKV_insertKV qkey "skipped" s.answers, rfl⟩,
    ⟨lookupKV_insertKV qkey v s.answers, rfl⟩, rfl⟩

/-- C10.  At the confirmation step after a successful reading, a turn whose
lower-cased text is exactly `retry` yields a redo verdict; the redo loops
straight back into the reading stage with a session whose retry counter,
answers and retry stage are all unchanged (only the readings-derived fields
of the done page differ after re-acquisition). -/
theorem c10_confirm_retry_redo (cfg : PageConfig) (maxRetries : Nat)
    (device : String) (t : UserTurn) (turns : List UserTurn)
    (rest : List IterOutcome) (d : DevValue) (s : Session)
    (hretry : pyLower t.text = "retry") :
    confirmReading (t :: turns) = some false ∧
    readingLoop cfg maxRetries device (.acqSuccess d (t :: turns) :: rest) s
      = readingLoop cfg maxRetries device rest
          (doneNode cfg device (storeReading device d (readingNode cfg device s))) ∧
    (doneNode cfg device (storeReading device d
        (readingNode cfg device s))).retry_count = s.retry_count ∧
    (doneNode cfg device (storeReading device d
        (readingNode cfg device s))).answers = s.answers ∧
    (doneNode cfg device (storeReading device d
        (readingNode cfg device s))).retry_stage = s.retry_stage := by
  have hc : confirmReading (t :: turns) = some false := by
    simp [confirmReading, hretry]
  refine ⟨hc, ?_, by simp, ?_, ?_⟩
  · simp only [readingLoop, hc]
  · simp [doneNode, readingNode, simpleNode]
  · simp [doneNode, readingNode, simpleNode]

def retryTurn : UserTurn := { text := "Retry", oracleProceed := false, oracleMessage := "" }

theorem c10_confirm_retry_redo_witness :
    pyLower "Retry" = "retry" ∧
    confirmReading [retryTurn] = some false ∧
    readingLoop specCfg 3 "oximeter"
        [.acqSuccess (.oximeterVal "72" "98") [retryTurn]] (freshSession specCfg)
      = readingLoop specCfg 3 "oximeter" []
          (doneNode specCfg "oximeter" (storeReading "oximeter"
            (.oximeterVal "72" "98")
            (readingNode specCfg "oximeter" (freshSession specCfg)))) := by
  have h := c10_confirm_retry_redo specCfg 3 "oximeter" retryTurn [] []
    (.oximeterVal "72" "98") (freshSession specCfg) (by decide)
  exact ⟨by decide, h.1, h.2.1⟩

/-! ### Reset during a blocked device acquisition (`robot._do_device_reading`,
`robot._ask_user`, `robot.run`)

`_do_device_reading` performs the (dummy-mode) blocking
`device_queue.get(timeout=READING_TIMEOUT)` and never consults
`reset_event`; the first reset check after the wait is the `_ask_user` call
inside `_confirm_reading` (success) or inside the retry question (timeout
below the ceiling), which raises `_ResetRequested`; `run()` catches it and
its outer loop constructs a fresh session.  This phase function composes one
acquisition round with that reset observation. -/

inductive PhaseOutcome where
  | unwoundToFresh (fresh : Session)
  | confirming (s : Session)
  | retryPrompt (s : Session)
  deriving Repr, DecidableEq

structure PhaseOut where
  visited : List String
  readingsSeen : List (String × String)
  outcome : PhaseOutcome
  deriving Repr, DecidableEq

/-- One acquisition round of `_reading_loop` with `reset_event` state
`resetFlag` held throughout: the reading page, the un-interruptible device
wait (`arrival` is the queue outcome), and then the first point at which the
reset flag is actually observed.  `visited` lists the stages entered during
the round; `readingsSeen` is the readings map right before the outcome. -/
def deviceWaitRound (cfg : PageConfig) (maxRetries : Nat) (device : String)
    (resetFlag : Bool) (arrival : Option DevValue) (s : Session) : PhaseOut :=
  let s1 := readingNode cfg device s
  match arrival with
  | some d =>
      let s2 := storeReading device d s1
      let s3 := doneNode cfg device s2
      if resetFlag then
        { visited := [s1.current_stage, s3.current_stage],
          readingsSeen := s3.readings,
          outcome := .unwoundToFresh (freshSession cfg) }
      else
        { visited := [s1.current_stage, s3.current_stage],
          readingsSeen := s3.readings, outcome := .confirming s3 }
  | none =>
      let s2 := timeoutUpdate device s1
      let s3 := sorryNode cfg maxRetries s2
      if maxRetries ≤ s3.retry_count then
        { visited := [s1.current_stage, s3.current_stage],
          readingsSeen := s3.readings,
          outcome := .unwoundToFresh (freshSession cfg) }
      else if resetFlag then
        { visited := [s1.current_stage, s3.current_stage],
          readingsSeen := s3.readings,
          outcome := .unwoundToFresh (freshSession cfg) }
      else
        { visited := [s1.current_stage, s3.current_stage],
          readingsSeen := s3.readings, outcome := .retryPrompt s3 }

/-- A mid-session state blocked at the blood-pressure acquisition (answers
and oximeter readings already collected). -/
def c2Session : Session :=
  { current_stage := "bp_intro", page_id := 10, robot_response := "",
    answers := [("q1", "skipped")],
    readings := [("oximeter_hr", "72"), ("oximeter_spo2", "98")],
    retry_stage := "", retry_count := 0 }

/-- C2 counterexample.  With the reset signal set during the blocked
blood-pressure wait, the wait is NOT interrupted: the acquisition completes,
the reading is stored (`bp ↦ 125/82` is in the readings map right at the
unwind point) and the `bp_done` stage is entered before the reset is first
observed at the next ActionChannel read — refuting "the reset interrupts
the blocked device-acquisition wait itself" with its immediate re-entry to
Idle. -/
theorem c2_reset_does_not_interrupt_wait :
    (deviceWaitRound specCfg 3 "bp" true (some (.bpVal "125/82")) c2Session).outcome
      = .unwoundToFresh (freshSession specCfg) ∧
    (deviceWaitRound specCfg 3 "bp" true (some (.bpVal "125/82")) c2Session).visited
      = ["bp_reading", "bp_done"] ∧
    lookupKV "bp"
      (deviceWaitRound specCfg 3 "bp" true (some (.bpVal "125/82")) c2Session).readingsSeen
      = some "125/82" := by
  refine ⟨by decide, by decide, by decide⟩

/-- C2 amended.  The reset signal set during a blocked device acquisition
does not interrupt the wait itself; the acquisition completes (on success
the reading is stored and the done stage entered), and the reset is observed
at the next ActionChannel read, at which point the session unwinds to a
freshly constructed Idle session whose readings map is empty and whose retry
counter is 0. -/
theorem c2_reset_observed_at_next_channel_read (cfg : PageConfig)
    (maxRetries : Nat) (device : String) (arrival : Option DevValue)
    (s : Session) :
    (deviceWaitRound cfg maxRetries device true arrival s).outcome
      = .unwoundToFresh (freshSession cfg) ∧
    (freshSession cfg).readings = [] ∧
    (freshSession cfg).retry_count = 0 ∧
    (freshSession cfg).current_stage = "idle" ∧
    (∀ d : DevValue, (deviceWaitRound cfg maxRetries device true (some d) s).visited
      = [device ++ "_reading", device ++ "_done"]) := by
  refine ⟨?_, rfl, rfl, rfl, fun d => ?_⟩
  · cases arrival with
    | some d => simp [deviceWaitRound]
    | none =>
        simp only [deviceWaitRound]
        split
        · rfl
        · rfl
  · simp [deviceWaitRound, doneNode, readingNode, simpleNode]

end HeartPod
